import Mathlib

/-!
Verification of the analytics_benchmark repository (Python) against its
natural-language specification.

The Python sources are shallowly embedded: strings are `List Char` (so that
every operation is kernel-computable), each Python function that a claim
depends on becomes a Lean function over an explicit environment describing
the outside world (database answers, file contents, subprocess results),
and side effects that the claims talk about (sleeps, reconnects, subprocess
invocations) are reified as explicit event traces or record fields.

Embedded files:
- `src/run_benchmarks.py`  → namespace `RunBenchmarks`
- `src/load/load_data.py`  → namespace `LoadData`
-/

namespace AnalyticsBenchmark

/-- Embedded Python string: a list of characters. -/
abbrev Str := List Char

/-- `leadMatch pat hay` tests whether `pat` is an initial segment of `hay`. -/
def leadMatch : Str → Str → Bool
  | [], _ => true
  | _ :: _, [] => false
  | a :: as, b :: bs => a = b && leadMatch as bs

/-- Python `pat in hay` for strings: substring containment. -/
def containsSub : Str → Str → Bool
  | [], pat => pat.isEmpty
  | c :: t, pat => leadMatch pat (c :: t) || containsSub t pat

/-- Python `s.lower()` restricted to ASCII (all string constants compared by
the embedded code are ASCII). -/
def toLowerStr (s : Str) : Str := s.map Char.toLower

/-- The whitespace characters stripped by Python `str.strip()` (ASCII subset;
the repository's inputs are ASCII). -/
def isWSChar (c : Char) : Bool := c = ' ' || c = '\t' || c = '\n' || c = '\r'

/-- Python `s.strip()`: drop leading and trailing whitespace. -/
def strip (s : Str) : Str :=
  ((s.dropWhile isWSChar).reverse.dropWhile isWSChar).reverse

/-- Python `s.split(sep)` for a one-character separator `sep`:
`"".split(sep) = [""]`, separators at the ends produce empty fields. -/
def splitOnChar (sep : Char) : Str → List Str
  | [] => [[]]
  | c :: cs =>
    let rest := splitOnChar sep cs
    if c = sep then [] :: rest
    else
      match rest with
      | [] => [[c]]
      | r :: rs => (c :: r) :: rs

/-! ### A stable insertion sort over a boolean "less or equal" relation

Python's `sorted` is a stable comparison sort; insertion sort has the same
input/output behaviour on any total transitive `le`. -/

def insertSorted (le : α → α → Bool) (a : α) : List α → List α
  | [] => [a]
  | b :: l => if le a b then a :: b :: l else b :: insertSorted le a l

def insertionSortBy (le : α → α → Bool) (l : List α) : List α :=
  l.foldr (insertSorted le) []

namespace RunBenchmarks

/-! ## Embedding of `src/run_benchmarks.py` -/

/-- `run_benchmarks.py` line 79. -/
def MAX_RETRIES : Nat := 3

/-- `run_benchmarks.py` line 80 (seconds slept between retry attempts). -/
def RETRY_DELAY : Nat := 5

def rootUser : Str := "root".toList

def defaultUser : Str := "default".toList

/-- `DatabaseBenchmark._is_auth_error` (lines 127-132): the patterns searched
for in the lowercased error text. -/
def auth_patterns : List Str :=
  ["access denied".toList, "authentication".toList, "unknown user".toList,
   "user".toList, "password".toList, "denied".toList]

/-- `DatabaseBenchmark._is_auth_error` (lines 127-132). -/
def is_auth_error (err : Str) : Bool :=
  auth_patterns.any fun pattern => containsSub (toLowerStr err) pattern

/-- `DatabaseBenchmark._is_memory_error` (lines 134-138). -/
def is_memory_error (err : Str) : Bool :=
  containsSub (toLowerStr err) "mem_limit_exceeded".toList ||
  containsSub (toLowerStr err) "memory not enough".toList

/-- `DatabaseBenchmark._is_timeout_error` (lines 140-144). -/
def is_timeout_error (err : Str) : Bool :=
  containsSub (toLowerStr err) "timeout".toList ||
  containsSub (toLowerStr err) "cancelled".toList

/-- What one execution attempt of the SQL script yields, as observed at the
`try`/`except mysql.connector.Error` of `execute_query_with_retry`
(lines 164-178): either the statements all succeed, or a database error with
the given message is raised. -/
inductive AttemptResult where
  | ok : AttemptResult
  | err : Str → AttemptResult
deriving DecidableEq

/-- Trace record for one iteration of the `for attempt in range(MAX_RETRIES)`
loop of `execute_query_with_retry` (lines 161-206).
* `idx` — the value of `attempt`;
* `connGen` — generation number of the connection the statements were executed
  on (`0` is the connection that was open when the call started; each
  `_connect_with_fallback` reconnect at line 168 yields a fresh generation);
* `reconnected` — whether line 167's `not self.conn.is_connected()` test
  forced a reconnect at the start of this attempt;
* `outcome` — what the execution attempt yielded;
* `closedAfter` — whether lines 186-191 closed cursor and connection after
  this attempt (the memory-error retry path);
* `sleptRetry` — whether line 183's `time.sleep(RETRY_DELAY)` ran after this
  attempt. -/
structure AttemptRecord where
  idx : Nat
  connGen : Nat
  reconnected : Bool
  outcome : AttemptResult
  closedAfter : Bool
  sleptRetry : Bool
deriving DecidableEq

/-- How `execute_query_with_retry` ends: `done b` models `return b, t`
(lines 176, 196, 204, 206); `raised m` models the `raise` at line 200
(auth error while still on the `root` user). -/
inductive RetryResult where
  | done : Bool → RetryResult
  | raised : Str → RetryResult
deriving DecidableEq

/-- The retry loop of `execute_query_with_retry` (lines 163-206).
`remaining` is `MAX_RETRIES - attempt` (so the code's
`attempt < MAX_RETRIES - 1` is `2 ≤ remaining`); `idx` is `attempt`;
`gen` is the generation of the current connection object; `connected` is
`self.conn and self.conn.is_connected()`; `nextGen` is the next unused
generation number. A reconnect (line 168) is modelled as succeeding without
changing the configured user; the environment `attempts` decides the outcome
of each execution attempt. -/
def retryLoop (user : Str) (attempts : Nat → AttemptResult) :
    Nat → Nat → Nat → Bool → Nat → List AttemptRecord × RetryResult
  | 0, _, _, _, _ => ([], .done false)
  | remaining + 1, idx, gen, connected, nextGen =>
    let gen2 := if connected then gen else nextGen
    let nextGen2 := if connected then nextGen else nextGen + 1
    let recon := !connected
    match attempts idx with
    | .ok => ([⟨idx, gen2, recon, .ok, false, false⟩], .done true)
    | .err m =>
      if is_memory_error m || is_timeout_error m then
        if remaining = 0 then
          ([⟨idx, gen2, recon, .err m, false, false⟩], .done false)
        else
          let closed := is_memory_error m
          let tail := retryLoop user attempts remaining (idx + 1) gen2 (!closed) nextGen2
          (⟨idx, gen2, recon, .err m, closed, true⟩ :: tail.1, tail.2)
      else if is_auth_error m && user == rootUser then
        ([⟨idx, gen2, recon, .err m, false, false⟩], .raised m)
      else
        ([⟨idx, gen2, recon, .err m, false, false⟩], .done false)

/-- `DatabaseBenchmark.execute_query_with_retry` (lines 161-206), as the trace
of loop iterations plus the way the call ends. `initConnected` is whether
`self.conn` was still connected on entry (line 167). -/
def execute_query_with_retry (user : Str) (attempts : Nat → AttemptResult)
    (initConnected : Bool) : List AttemptRecord × RetryResult :=
  retryLoop user attempts MAX_RETRIES 0 0 initConnected 1

/-- How `_connect_with_fallback` (lines 106-125) ends: a live connection
authenticated as `user`, or `sys.exit(1)` (lines 122 and 125). -/
inductive ConnectResult where
  | connected : Str → ConnectResult
  | exitFatal : ConnectResult
deriving DecidableEq

/-- `DatabaseBenchmark._connect_with_fallback` (lines 106-125).
`connectErr u` is `None` when `mysql.connector.connect` succeeds for user `u`
and `some e` when it raises an error rendering as `e`. Besides the result, the
list of identities that were attempted, in order, is returned. -/
def connect_with_fallback (user : Str) (connectErr : Str → Option Str) :
    ConnectResult × List Str :=
  match connectErr user with
  | none => (.connected user, [user])
  | some e =>
    if is_auth_error e && !(user == defaultUser) then
      match connectErr defaultUser with
      | none => (.connected defaultUser, [user, defaultUser])
      | some _ => (.exitFatal, [user, defaultUser])
    else (.exitFatal, [user])

/-! ### File discovery and ordering (`get_sql_files`, lines 208-225) -/

/-- Python `int(s)` on a string, for the inputs arising here: optional
surrounding whitespace, an optional single sign, then one or more ASCII
digits (PEP 515 underscore grouping is not modelled). `none` models
`ValueError`. -/
def pyInt? (s : Str) : Option Int :=
  let t := strip s
  match t with
  | '+' :: ds =>
    if !ds.isEmpty && ds.all Char.isDigit then some ((ds.foldl (fun n c => n * 10 + (c.toNat - 48)) 0 : Nat) : Int)
    else none
  | '-' :: ds =>
    if !ds.isEmpty && ds.all Char.isDigit then some (-((ds.foldl (fun n c => n * 10 + (c.toNat - 48)) 0 : Nat) : Int))
    else none
  | ds =>
    if !ds.isEmpty && ds.all Char.isDigit then some ((ds.foldl (fun n c => n * 10 + (c.toNat - 48)) 0 : Nat) : Int)
    else none

/-- Python `x.split(".")[0]` (line 222): `split` always returns at least one
field, so the head is total. -/
def firstDotField (x : Str) : Str := (splitOnChar '.' x).headD []

/-- The sort key `int(x.split(".")[0])` of line 222; `none` = `ValueError`. -/
def numKey? (x : Str) : Option Int := pyInt? (firstDotField x)

/-- Numeric comparison used by `sorted(sql_files, key=...)` at line 222 once
every key has been computed successfully (`0` is never used: callers only sort
with this when every key is `some`). -/
def numLe (a b : Str) : Bool := (numKey? a).getD 0 ≤ (numKey? b).getD 0

/-- Lexicographic string comparison: Python `sorted(sql_files)` at line 225
orders strings by code points. -/
def lexLe (a b : Str) : Bool := a ≤ b

/-- `DatabaseBenchmark.get_sql_files` (lines 208-225) from the directory
listing on: keep the `.sql` names, `sys.exit(1)` (modelled `none`) when none
remain, then sort by numeric prefix, falling back to a lexical sort of the
whole set when any key raises `ValueError`. -/
def get_sql_files (listing : List Str) : Option (List Str) :=
  let sql_files := listing.filter fun f => ".sql".toList.isSuffixOf f
  if sql_files.isEmpty then none
  else if sql_files.all fun f => (numKey? f).isSome then
    some (insertionSortBy numLe sql_files)
  else
    some (insertionSortBy lexLe sql_files)

/-! ### The benchmark driver (`run_benchmarks`, lines 227-309) -/

/-- `statements` as computed by `_execute_statements` (line 148):
`[stmt.strip() for stmt in sql_script.split(";") if stmt.strip()]`. -/
def scriptStatements (script : Str) : List Str :=
  ((splitOnChar ';' script).map strip).filter fun s => !s.isEmpty

/-- Outcome of `open(...).read()` for one query file (lines 241-261). -/
inductive ReadOutcome where
  | found : Str → ReadOutcome
  | notFound : ReadOutcome
  | decodeError : ReadOutcome
deriving DecidableEq

/-- Outcome of a call to `execute_query_with_retry` for a script that has at
least one statement: `ok t` = `(True, t)` with the elapsed time abstracted to
`t` time units, `fail` = `(False, 0)`, `raised m` = a
`mysql.connector.Error` rendering as `m` propagated out of the call. -/
inductive ExecResult where
  | ok : Nat → ExecResult
  | fail : ExecResult
  | raised : Str → ExecResult
deriving DecidableEq

/-- The environment a benchmark run interacts with: the file system and the
database. `execO user file` is what `execute_query_with_retry` returns for
`file`'s (non-empty) statement list while connected as `user`. -/
structure BenchEnv where
  readFile : Str → ReadOutcome
  execO : Str → Str → ExecResult

/-- One `execute_query_with_retry(sql_script, sql_file)` call (lines 249 and
294): when the script has no statements (`_execute_statements` at lines
146-159 executes nothing), the call deterministically returns success with a
negligible elapsed time, modelled `ok 0`; otherwise the environment decides. -/
def execFile (env : BenchEnv) (user file script : Str) : ExecResult :=
  if (scriptStatements script).isEmpty then .ok 0 else env.execO user file

/-- The final state of a benchmark run: `_print_summary`'s inputs (lines
272, 306) plus whether `_restart_with_default_user` ran and whether the
process exits with status 1 (lines 274-275, 308-309). -/
structure Summary where
  successful : List (Str × Nat)
  failed : List Str
  total : Nat
  restarted : Bool
  exitFailure : Bool
deriving DecidableEq

/-- One iteration of the file loop of `_restart_with_default_user`
(lines 286-304): note there is no empty-script skip here, and every
exception — including a further authorization error — just records the file
as failed (lines 302-304). The accumulator is
(successful_queries, failed_queries, total_time). -/
def restartStep (env : BenchEnv) (acc : List (Str × Nat) × List Str × Nat)
    (file : Str) : List (Str × Nat) × List Str × Nat :=
  match env.readFile file with
  | .notFound => (acc.1, acc.2.1 ++ [file], acc.2.2)
  | .decodeError => (acc.1, acc.2.1 ++ [file], acc.2.2)
  | .found s =>
    match execFile env defaultUser file s with
    | .ok t => (acc.1 ++ [(file, t)], acc.2.1, acc.2.2 + t)
    | .fail => (acc.1, acc.2.1 ++ [file], acc.2.2)
    | .raised _ => (acc.1, acc.2.1 ++ [file], acc.2.2)

/-- `DatabaseBenchmark._restart_with_default_user` (lines 277-309): switches
the configured user to `"default"`, starts from fresh accumulators, processes
the file list it is given, prints the summary and exits 1 when anything
failed. -/
def restart_with_default_user (env : BenchEnv) (files : List Str) : Summary :=
  let acc := files.foldl (restartStep env) ([], [], 0)
  { successful := acc.1, failed := acc.2.1, total := acc.2.2,
    restarted := true, exitFailure := !acc.2.1.isEmpty }

/-- The file loop of `run_benchmarks` (lines 237-270). `allFiles` is the full
`sql_files` list computed at line 229 — the auth-error handler at lines
263-267 passes that full list, not the unprocessed remainder, to
`_restart_with_default_user` and then returns. -/
def runBenchGo (env : BenchEnv) (user : Str) (allFiles : List Str) :
    List Str → List (Str × Nat) → List Str → Nat → Summary
  | [], succ, failed, total =>
    { successful := succ, failed := failed, total := total,
      restarted := false, exitFailure := !failed.isEmpty }
  | f :: rest, succ, failed, total =>
    match env.readFile f with
    | .notFound => runBenchGo env user allFiles rest succ (failed ++ [f]) total
    | .decodeError => runBenchGo env user allFiles rest succ (failed ++ [f]) total
    | .found s =>
      if (strip s).isEmpty then runBenchGo env user allFiles rest succ failed total
      else
        match execFile env user f s with
        | .ok t => runBenchGo env user allFiles rest (succ ++ [(f, t)]) failed (total + t)
        | .fail => runBenchGo env user allFiles rest succ (failed ++ [f]) total
        | .raised m =>
          if is_auth_error m && user == rootUser then
            restart_with_default_user env allFiles
          else runBenchGo env user allFiles rest succ (failed ++ [f]) total

/-- `DatabaseBenchmark.run_benchmarks` (lines 227-275) from the point where
`sql_files` has been computed and the initial connection has been
established: process every file in order, then print the summary and exit 1
when anything failed. -/
def run_benchmarks (env : BenchEnv) (user : Str) (files : List Str) : Summary :=
  runBenchGo env user files files [] [] 0

/-! ### Concrete environments used to exercise the run model -/

/-- A world with two query files: `1.sql` succeeds in 5 time units under the
primary `root` identity, `2.sql` is rejected with an authorization error
under `root`, and every file succeeds in 7 time units under the fallback
`default` identity. -/
def c3Env : BenchEnv where
  readFile := fun f =>
    if f == "1.sql".toList then .found "select 1".toList else .found "select 2".toList
  execO := fun u f =>
    if u == rootUser then
      if f == "1.sql".toList then .ok 5 else .raised "access denied".toList
    else .ok 7

/-- A world with a whitespace-only query file `0.sql` and a file `1.sql`
whose execution is rejected with an authorization error under `root` but
succeeds in 3 time units under the fallback identity. -/
def c10Env : BenchEnv where
  readFile := fun f =>
    if f == "0.sql".toList then .found "   ".toList else .found "select".toList
  execO := fun u _ =>
    if u == rootUser then .raised "access denied".toList else .ok 3

end RunBenchmarks

namespace LoadData

/-! ## Embedding of `src/load/load_data.py` -/

/-- `load_data.py` line 28. -/
def CONNECTION_TIMEOUT : Nat := 60

/-- `load_data.py` line 30. -/
def DORIS_TIMEOUT : Nat := 120

/-- `load_data.py` line 32 (poll interval of the TiDB wait loop). -/
def RETRY_DELAY : Nat := 2

/-- What the database answers a cluster readiness probe
(`DorisLoader.test_connection`, lines 577-615, and
`StarRocksLoader.test_connection`, lines 849-887):
* `connectOk` — `_get_connection` succeeds and `is_connected()` holds;
* `selectOneOk` — `SELECT 1` executes without raising;
* `backendsResult` — the row set of `SHOW BACKENDS` (each row a list of
  column strings), or `none` when that query raises. -/
structure ClusterProbeEnv where
  connectOk : Bool
  selectOneOk : Bool
  backendsResult : Option (List (List Str))

/-- Doris aliveness test of one `SHOW BACKENDS` row (line 599):
`len(backend) > 9 and backend[9] == 'true'`. -/
def dorisBackendAlive (row : List Str) : Bool :=
  decide (9 < row.length) && (row.getD 9 [] == "true".toList)

/-- StarRocks aliveness test of one `SHOW BACKENDS` row (line 871):
`len(backend) > 8 and str(backend[8]).lower() == 'true'`. -/
def starrocksBackendAlive (row : List Str) : Bool :=
  decide (8 < row.length) && (toLowerStr (row.getD 8 []) == "true".toList)

/-- `DorisLoader.test_connection` (lines 577-615): any failure along the way
(connection, `SELECT 1`, `SHOW BACKENDS`) yields `False`; an empty backend
list or zero alive backends yields `False`; otherwise `True`. -/
def doris_test_connection (env : ClusterProbeEnv) : Bool :=
  if !env.connectOk then false
  else if !env.selectOneOk then false
  else
    match env.backendsResult with
    | none => false
    | some backends =>
      if backends.isEmpty then false
      else if backends.countP dorisBackendAlive = 0 then false
      else true

/-- `StarRocksLoader.test_connection` (lines 849-887): same shape as the Doris
probe, with the StarRocks aliveness column test. -/
def starrocks_test_connection (env : ClusterProbeEnv) : Bool :=
  if !env.connectOk then false
  else if !env.selectOneOk then false
  else
    match env.backendsResult with
    | none => false
    | some backends =>
      if backends.isEmpty then false
      else if backends.countP starrocksBackendAlive = 0 then false
      else true

/-- The Stream Load HTTP response as the loaders see it (lines 790-792 and
1069-1071): the status code and `response.json().get('Status')` (`none` when
the `Status` field is absent; the body is assumed to parse as JSON). -/
structure StreamLoadResponse where
  statusCode : Nat
  bodyStatus : Option Str

/-- How one `_load_file_via_stream_load` call ends: `ok reported` is the
success path, with `reported` recording whether the follow-up
`SELECT COUNT(*)` row-count query succeeded (lines 795-807 / 1074-1086 —
its failure is only logged); `loadError` models the raised `RuntimeError`
(lines 810, 813 / 1089, 1092). -/
inductive LoadOutcome where
  | ok : Bool → LoadOutcome
  | loadError : LoadOutcome
deriving DecidableEq

/-- `DorisLoader._load_file_via_stream_load` (lines 751-817), given the HTTP
response and whether the separate row-count query succeeds. -/
def doris_stream_load (resp : StreamLoadResponse) (countQueryOk : Bool) : LoadOutcome :=
  if resp.statusCode == 200 then
    if resp.bodyStatus == some "Success".toList then .ok countQueryOk
    else .loadError
  else .loadError

/-- `StarRocksLoader._load_file_via_stream_load` (lines 1029-1096): identical
decision structure to the Doris variant. -/
def starrocks_stream_load (resp : StreamLoadResponse) (countQueryOk : Bool) : LoadOutcome :=
  if resp.statusCode == 200 then
    if resp.bodyStatus == some "Success".toList then .ok countQueryOk
    else .loadError
  else .loadError

/-- Observable side effects of a readiness wait, in order. `pollConn` is one
`test_connection()` call; `sleepSecs n` is `time.sleep(n)`; `dockerPs` and
`dockerProvision` are the two subprocess invocations of
`_ensure_columnstore_provisioned` (lines 1144-1161), both of which block
until the spawned command finishes. (Log emission is not modelled.) -/
inductive ProbeEffect where
  | pollConn : ProbeEffect
  | sleepSecs : Nat → ProbeEffect
  | dockerPs : ProbeEffect
  | dockerProvision : ProbeEffect
deriving DecidableEq

/-- The common poll-loop shape `while time.time() - start_time < timeout:`
shared by the four `wait_for_connection` implementations (lines 398-402,
626-640, 898-912, 1179-1193): `elapsedAt k` is the whole-second elapsed time
observed at the `k`-th loop-condition check (`elapsedAt 0 = 0` up to clock
granularity — the model needs only that it is a natural number), `poll k` is
the result of the `k`-th `test_connection()` call, and `sleepLen` is the
per-iteration sleep. `fuel` bounds the unrolling; it is irrelevant whenever
the timeout check fails first. -/
def waitLoop (sleepLen : Nat) (elapsedAt : Nat → Nat) (poll : Nat → Bool)
    (timeout : Nat) : Nat → Nat → Bool × List ProbeEffect
  | 0, _ => (false, [])
  | fuel + 1, k =>
    if elapsedAt k < timeout then
      if poll k then (true, [.pollConn])
      else
        let rest := waitLoop sleepLen elapsedAt poll timeout fuel (k + 1)
        (rest.1, .pollConn :: .sleepSecs sleepLen :: rest.2)
    else (false, [])

/-- `TiDBLoader.wait_for_connection` (lines 394-405): poll every
`RETRY_DELAY` seconds until the timeout elapses. -/
def tidb_wait_for_connection (fuel : Nat) (elapsedAt : Nat → Nat)
    (poll : Nat → Bool) (timeout : Nat) : Bool × List ProbeEffect :=
  waitLoop RETRY_DELAY elapsedAt poll timeout fuel 0

/-- `DorisLoader.wait_for_connection` (lines 617-643): `timeout=None` selects
`DORIS_TIMEOUT`; the loop polls and sleeps 5 seconds per iteration. -/
def doris_wait_for_connection (fuel : Nat) (elapsedAt : Nat → Nat)
    (poll : Nat → Bool) (timeout : Option Nat) : Bool × List ProbeEffect :=
  waitLoop 5 elapsedAt poll (timeout.getD DORIS_TIMEOUT) fuel 0

/-- `StarRocksLoader.wait_for_connection` (lines 889-915): `timeout=None`
selects the literal `120`; the loop polls and sleeps 5 seconds per
iteration. -/
def starrocks_wait_for_connection (fuel : Nat) (elapsedAt : Nat → Nat)
    (poll : Nat → Bool) (timeout : Option Nat) : Bool × List ProbeEffect :=
  waitLoop 5 elapsedAt poll (timeout.getD 120) fuel 0

/-- Environment of `ColumnStoreLoader._ensure_columnstore_provisioned`
(lines 1138-1167):
* `dockerPsOk` — the `docker ps --filter "name=mcs1"` command itself succeeds
  (it is run with `check=True`, so a failure raises `CalledProcessError`);
* `psListsMcs1` — its stdout contains `mcs1`;
* `provisionExit` — the exit status of `sh -c "provision mcs1"` inside the
  container. The code appends `|| true` to that shell command (line 1159), so
  the `returncode` it observes is always `0` and `provisionExit` is
  unobservable: it only determines which informational message would have
  been logged (lines 1162-1165). -/
structure ProvisionEnv where
  dockerPsOk : Bool
  psListsMcs1 : Bool
  provisionExit : Nat

/-- `ColumnStoreLoader._ensure_columnstore_provisioned` (lines 1138-1167):
fails only when the container check fails; the provisioning exec itself can
never fail the function (its observed returncode is forced to `0`, and both
log branches fall through to `return True`). -/
def ensure_columnstore_provisioned (env : ProvisionEnv) : Bool × List ProbeEffect :=
  if !env.dockerPsOk then (false, [.dockerPs])
  else if !env.psListsMcs1 then (false, [.dockerPs])
  else (true, [.dockerPs, .dockerProvision])

/-- `ColumnStoreLoader.wait_for_connection` (lines 1169-1196): first runs the
provisioning precheck — two blocking subprocess invocations — and only then
enters the timed poll loop (2-second sleeps). -/
def columnstore_wait_for_connection (fuel : Nat) (env : ProvisionEnv)
    (elapsedAt : Nat → Nat) (poll : Nat → Bool) (timeout : Nat) :
    Bool × List ProbeEffect :=
  let prov := ensure_columnstore_provisioned env
  if !prov.1 then (false, prov.2)
  else
    let rest := waitLoop 2 elapsedAt poll timeout fuel 0
    (rest.1, prov.2 ++ rest.2)

/-- Result of the `cpimport` subprocess for one table
(`ColumnStoreLoader._load_table`, lines 1314-1331). -/
structure CpimportResult where
  returncode : Nat
  stderrOut : Str

/-- How `_load_table` ends: `ok` — clean exit; `warnedOk` — nonzero exit
whose stderr lacks the `error` indicator, logged as a warning and treated as
success; `raisedLoadError` — the `RuntimeError` of line 1331. The row-count
reporting that follows (lines 1336-1361) tolerates its own failure and never
changes the outcome. -/
inductive TableLoadOutcome where
  | ok : TableLoadOutcome
  | warnedOk : TableLoadOutcome
  | raisedLoadError : TableLoadOutcome
deriving DecidableEq

/-- `ColumnStoreLoader._load_table` (lines 1314-1331): only a nonzero exit
status triggers inspection of stderr; `"error" in result.stderr.lower()`
decides between a tolerated warning and a raised load error. -/
def columnstore_load_table (res : CpimportResult) : TableLoadOutcome :=
  if res.returncode ≠ 0 then
    if !(containsSub (toLowerStr res.stderrOut) "error".toList) then .warnedOk
    else .raisedLoadError
  else .ok

end LoadData

/-! ## Theorems -/

theorem splitOnChar_ne_nil (sep : Char) (s : Str) : splitOnChar sep s ≠ [] := by
  induction s with
  | nil => simp [splitOnChar]
  | cons c cs ih =>
    simp only [splitOnChar]
    split
    · simp
    · cases h : splitOnChar sep cs with
      | nil => simp
      | cons r rs => simp [h]

/-- A whitespace-only string contains no separator, so splitting it returns
the whole string as the single field. -/
theorem splitOnChar_of_all_ws (sep : Char) (hsep : isWSChar sep = false) (s : Str)
    (h : ∀ c ∈ s, isWSChar c = true) : splitOnChar sep s = [s] := by
  induction s with
  | nil => rfl
  | cons c cs ih =>
    have hc : isWSChar c = true := h c (List.mem_cons_self c cs)
    have hrest : splitOnChar sep cs = [cs] := ih fun x hx => h x (List.mem_cons_of_mem c hx)
    have hne : ¬(c = sep) := by
      intro he
      rw [he, hsep] at hc
      exact Bool.false_ne_true hc
    simp [splitOnChar, hne, hrest]

theorem dropWhile_eq_nil_of_all {p : Char → Bool} {l : Str}
    (h : ∀ c ∈ l, p c = true) : l.dropWhile p = [] := by
  induction l with
  | nil => rfl
  | cons c cs ih =>
    rw [List.dropWhile_cons_of_pos (h c (List.mem_cons_self c cs))]
    exact ih fun x hx => h x (List.mem_cons_of_mem c hx)

theorem all_ws_of_strip_nil {s : Str} (h : strip s = []) : ∀ c ∈ s, isWSChar c = true := by
  intro c hc
  unfold strip at h
  have h2 : (s.dropWhile isWSChar).reverse.dropWhile isWSChar = [] :=
    List.reverse_eq_nil_iff.mp h
  have h3 : ∀ x ∈ (s.dropWhile isWSChar).reverse, isWSChar x = true :=
    List.dropWhile_eq_nil_iff.mp h2
  have h4 : ∀ x ∈ s.dropWhile isWSChar, isWSChar x = true := by
    intro x hx
    exact h3 x (List.mem_reverse.mpr hx)
  have h5 : s = s.takeWhile isWSChar ++ s.dropWhile isWSChar :=
    (List.takeWhile_append_dropWhile isWSChar s).symm
  rcases List.mem_append.mp (h5 ▸ hc) with h6 | h6
  · exact List.mem_takeWhile_imp h6
  · exact h4 c h6

theorem strip_eq_nil_of_all_ws {s : Str} (h : ∀ c ∈ s, isWSChar c = true) :
    strip s = [] := by
  unfold strip
  rw [dropWhile_eq_nil_of_all h]
  rfl

theorem insertSorted_perm (le : α → α → Bool) (a : α) (l : List α) :
    List.Perm (insertSorted le a l) (a :: l) := by
  induction l with
  | nil => exact List.Perm.refl _
  | cons b t ih =>
    simp only [insertSorted]
    split
    · exact List.Perm.refl _
    · exact (ih.cons b).trans (List.Perm.swap a b t)

theorem insertionSortBy_perm (le : α → α → Bool) (l : List α) :
    List.Perm (insertionSortBy le l) l := by
  induction l with
  | nil => exact List.Perm.refl _
  | cons a t ih =>
    exact (insertSorted_perm le a (insertionSortBy le t)).trans (ih.cons a)

theorem pairwise_insertSorted (le : α → α → Bool)
    (htot : ∀ x y, le x y = true ∨ le y x = true)
    (htrans : ∀ x y z, le x y = true → le y z = true → le x z = true)
    (a : α) (l : List α) (h : l.Pairwise (fun x y => le x y = true)) :
    (insertSorted le a l).Pairwise (fun x y => le x y = true) := by
  induction l with
  | nil => simp [insertSorted]
  | cons b t ih =>
    rcases List.pairwise_cons.mp h with ⟨hb, ht⟩
    simp only [insertSorted]
    split
    · rename_i hab
      refine List.pairwise_cons.mpr ⟨?_, h⟩
      intro x hx
      rcases List.mem_cons.mp hx with rfl | hx
      · exact hab
      · exact htrans a b x hab (hb x hx)
    · rename_i hab
      have hba : le b a = true := by
        rcases htot a b with h1 | h1
        · exact absurd h1 hab
        · exact h1
      refine List.pairwise_cons.mpr ⟨?_, ih ht⟩
      intro x hx
      have hx2 : x ∈ a :: t := (insertSorted_perm le a t).mem_iff.mp hx
      rcases List.mem_cons.mp hx2 with rfl | hx3
      · exact hba
      · exact hb x hx3

theorem pairwise_insertionSortBy (le : α → α → Bool)
    (htot : ∀ x y, le x y = true ∨ le y x = true)
    (htrans : ∀ x y z, le x y = true → le y z = true → le x z = true)
    (l : List α) :
    (insertionSortBy le l).Pairwise (fun x y => le x y = true) := by
  induction l with
  | nil => simp [insertionSortBy]
  | cons a t ih => exact pairwise_insertSorted le htot htrans a (insertionSortBy le t) ih

namespace RunBenchmarks

/-! ### Lemmas about the retry loop -/

theorem retryLoop_length_le (user : Str) (attempts : Nat → AttemptResult) :
    ∀ (remaining idx gen nextGen : Nat) (connected : Bool),
      (retryLoop user attempts remaining idx gen connected nextGen).1.length ≤ remaining := by
  intro remaining
  induction remaining with
  | zero => intro idx gen nextGen connected; simp [retryLoop]
  | succ rem ih =>
    intro idx gen nextGen connected
    simp only [retryLoop]
    cases attempts idx with
    | ok => simp
    | err m =>
      cases hc : (is_memory_error m || is_timeout_error m) with
      | true =>
        simp only [hc, if_true]
        by_cases hr : rem = 0
        · simp [hr]
        · rw [if_neg hr]
          simpa using Nat.succ_le_succ (ih (idx + 1) _ _ _)
      | false =>
        simp only [hc, Bool.false_eq_true, if_false]
        split <;> simp

theorem retryLoop_all_transient (user : Str) (attempts : Nat → AttemptResult) :
    ∀ (remaining idx gen nextGen : Nat) (connected : Bool),
      1 ≤ remaining →
      (∀ a, idx ≤ a → a < idx + remaining →
        ∃ m, attempts a = .err m ∧ (is_memory_error m || is_timeout_error m) = true) →
      (retryLoop user attempts remaining idx gen connected nextGen).2 = .done false ∧
      (retryLoop user attempts remaining idx gen connected nextGen).1.map
          AttemptRecord.sleptRetry
        = List.replicate (remaining - 1) true ++ [false] := by
  intro remaining
  induction remaining with
  | zero => intro idx gen nextGen connected h1; omega
  | succ rem ih =>
    intro idx gen nextGen connected _ h
    obtain ⟨m, hm, ht⟩ := h idx (Nat.le_refl idx) (by omega)
    simp only [retryLoop, hm, ht, if_true]
    by_cases hr : rem = 0
    · subst hr; simp
    · rw [if_neg hr]
      obtain ⟨k, rfl⟩ := Nat.exists_eq_succ_of_ne_zero hr
      have hrec := ih (idx + 1) (if connected then gen else nextGen)
        (if connected then nextGen else nextGen + 1)
        (!is_memory_error m) (by omega)
        (fun a ha1 ha2 => h a (by omega) (by omega))
      rcases hrec with ⟨h1, h2⟩
      refine ⟨h1, ?_⟩
      simp only [List.map_cons, h2]
      simp [List.replicate_succ]

/-- Head of the record list when the loop starts with a dropped connection:
line 167 sees a disconnected `self.conn`, so line 168 establishes the fresh
generation `nextGen` before anything is executed. -/
theorem retryLoop_head_of_disconnected (user : Str) (attempts : Nat → AttemptResult)
    (rem idx gen nextGen : Nat) (r : AttemptRecord)
    (h : (retryLoop user attempts (rem + 1) idx gen false nextGen).1.head? = some r) :
    r.reconnected = true ∧ r.connGen = nextGen := by
  simp only [retryLoop, Bool.false_eq_true, if_false, Bool.not_false] at h
  cases hA : attempts idx with
  | ok =>
    rw [hA] at h
    simp only [List.head?_cons, Option.some.injEq] at h
    subst h
    exact ⟨rfl, rfl⟩
  | err m =>
    rw [hA] at h
    cases hc : (is_memory_error m || is_timeout_error m) with
    | true =>
      simp only [hc, if_true] at h
      by_cases hr : rem = 0
      · rw [if_pos hr] at h
        simp only [List.head?_cons, Option.some.injEq] at h
        subst h
        exact ⟨rfl, rfl⟩
      · rw [if_neg hr] at h
        simp only [List.head?_cons, Option.some.injEq] at h
        subst h
        exact ⟨rfl, rfl⟩
    | false =>
      simp only [hc, Bool.false_eq_true, if_false] at h
      split at h <;>
        (simp only [List.head?_cons, Option.some.injEq] at h; subst h; exact ⟨rfl, rfl⟩)

/-- Core invariant behind C8: inside the retry loop, an attempt that failed
with a memory-classified error and that has a follow-up attempt had its
connection closed (lines 186-191), and the follow-up attempt reconnected and
ran on a different connection generation. -/
theorem retryLoop_memory_reconnects (user : Str) (attempts : Nat → AttemptResult) :
    ∀ (remaining idx gen nextGen : Nat) (connected : Bool), gen < nextGen →
    ∀ (i : Nat) (r r2 : AttemptRecord) (m : Str),
      (retryLoop user attempts remaining idx gen connected nextGen).1.get? i = some r →
      (retryLoop user attempts remaining idx gen connected nextGen).1.get? (i + 1) = some r2 →
      r.outcome = .err m → is_memory_error m = true →
      r.closedAfter = true ∧ r2.reconnected = true ∧ r2.connGen ≠ r.connGen := by
  intro remaining
  induction remaining with
  | zero =>
    intro idx gen nextGen connected _ i r r2 m h1 _ _ _
    simp [retryLoop] at h1
  | succ rem ih =>
    intro idx gen nextGen connected hlt i r r2 m h1 h2 hout hmem
    simp only [retryLoop] at h1 h2
    cases hA : attempts idx with
    | ok =>
      rw [hA] at h1 h2
      cases i <;> simp at h1 h2
    | err m0 =>
      rw [hA] at h1 h2
      cases hc : (is_memory_error m0 || is_timeout_error m0) with
      | true =>
        simp only [hc, if_true] at h1 h2
        by_cases hr : rem = 0
        · rw [if_pos hr] at h1 h2
          cases i <;> simp at h1 h2
        · rw [if_neg hr] at h1 h2
          obtain ⟨k, rfl⟩ := Nat.exists_eq_succ_of_ne_zero hr
          cases i with
          | zero =>
            simp only [List.get?_cons_zero, Option.some.injEq] at h1
            subst h1
            replace hout : m0 = m := AttemptResult.err.inj hout
            subst hout
            simp only [List.get?_cons_succ, List.get?_cons_zero] at h2
            rw [hmem] at h2
            have hhead := retryLoop_head_of_disconnected user attempts k (idx + 1)
              (if connected then gen else nextGen)
              (if connected then nextGen else nextGen + 1) r2
              (by rw [← List.get?_zero]; exact h2)
            refine ⟨by simp [hmem], hhead.1, ?_⟩
            rw [hhead.2]
            simp only
            cases connected <;> (simp; try omega)
          | succ n =>
            simp only [List.get?_cons_succ] at h1 h2
            have hlt2 : (if connected then gen else nextGen)
                < (if connected then nextGen else nextGen + 1) := by
              cases connected <;> (simp; try omega)
            exact ih (idx + 1) _ _ (!is_memory_error m0) hlt2 n r r2 m h1 h2 hout hmem
      | false =>
        simp only [hc, Bool.false_eq_true, if_false] at h1 h2
        split at h1 <;> split at h2 <;> (cases i <;> simp_all)

/-! ### Lemmas about ordering and the run model -/

theorem numLe_total (a b : Str) : numLe a b = true ∨ numLe b a = true := by
  unfold numLe
  rcases le_total ((numKey? a).getD 0) ((numKey? b).getD 0) with h | h
  · exact Or.inl (decide_eq_true h)
  · exact Or.inr (decide_eq_true h)

theorem numLe_trans (a b c : Str) (h1 : numLe a b = true) (h2 : numLe b c = true) :
    numLe a c = true := by
  unfold numLe at h1 h2 ⊢
  exact decide_eq_true (le_trans (of_decide_eq_true h1) (of_decide_eq_true h2))

theorem lexLe_total (a b : Str) : lexLe a b = true ∨ lexLe b a = true := by
  unfold lexLe
  rcases le_total a b with h | h
  · exact Or.inl (decide_eq_true h)
  · exact Or.inr (decide_eq_true h)

theorem lexLe_trans (a b c : Str) (h1 : lexLe a b = true) (h2 : lexLe b c = true) :
    lexLe a c = true := by
  unfold lexLe at h1 h2 ⊢
  exact decide_eq_true (le_trans (of_decide_eq_true h1) (of_decide_eq_true h2))

/-- A script whose `strip` is empty splits into no statements (it is all
whitespace, so it contains no `;` and strips to nothing). -/
theorem scriptStatements_eq_nil {s : Str} (h : (strip s).isEmpty = true) :
    scriptStatements s = [] := by
  have hnil : strip s = [] := by
    cases hs : strip s with
    | nil => rfl
    | cons c t => rw [hs] at h; simp [List.isEmpty] at h
  have hws : ∀ c ∈ s, isWSChar c = true := all_ws_of_strip_nil hnil
  have hsplit : splitOnChar ';' s = [s] := splitOnChar_of_all_ws ';' (by decide) s hws
  unfold scriptStatements
  rw [hsplit]
  simp [strip_eq_nil_of_all_ws hws]

/-- Each file processed by the restart pass lands in exactly one of the two
result lists. -/
theorem restartStep_units (env : BenchEnv) (acc : List (Str × Nat) × List Str × Nat)
    (f : Str) :
    (restartStep env acc f).1.length + (restartStep env acc f).2.1.length
      = acc.1.length + acc.2.1.length + 1 := by
  unfold restartStep
  cases hR : env.readFile f with
  | notFound => simp; omega
  | decodeError => simp; omega
  | found s =>
    cases hE : execFile env defaultUser f s <;> (simp [hE]; omega)

theorem restart_foldl_length (env : BenchEnv) :
    ∀ (files : List Str) (acc : List (Str × Nat) × List Str × Nat),
      (files.foldl (restartStep env) acc).1.length
        + (files.foldl (restartStep env) acc).2.1.length
      = acc.1.length + acc.2.1.length + files.length := by
  intro files
  induction files with
  | nil => intro acc; simp
  | cons f t ih =>
    intro acc
    have h := restartStep_units env acc f
    rw [List.foldl_cons, ih (restartStep env acc f)]
    simp only [List.length_cons]
    omega

/-- The fallback pass records every file of the list it is given exactly
once: nothing is skipped, nothing is processed twice. -/
theorem restart_all_recorded (env : BenchEnv) (files : List Str) :
    (restart_with_default_user env files).successful.length
      + (restart_with_default_user env files).failed.length = files.length := by
  unfold restart_with_default_user
  simpa using restart_foldl_length env files ([], [], 0)

end RunBenchmarks

/-! ## The claims -/

namespace RunBenchmarks

/-- **C1**: for every query file, if a transient-resource (memory-limit- or
timeout-classified) error is raised on every execution attempt,
`execute_query_with_retry` makes exactly the fixed maximum number of attempts
(`MAX_RETRIES = 3`), sleeping the fixed delay between consecutive attempts
(and after no other attempt), and then returns a failure result; the attempt
count of any call whatsoever is bounded by `MAX_RETRIES`, so the retry loop
is never unbounded. -/
theorem claim1_transient_failure_bounded_retries
    (user : Str) (attempts : Nat → AttemptResult) (initConnected : Bool)
    (h : ∀ a, a < MAX_RETRIES →
      ∃ m, attempts a = .err m ∧ (is_memory_error m || is_timeout_error m) = true) :
    MAX_RETRIES = 3 ∧
    (execute_query_with_retry user attempts initConnected).2 = .done false ∧
    (execute_query_with_retry user attempts initConnected).1.length = MAX_RETRIES ∧
    (execute_query_with_retry user attempts initConnected).1.map AttemptRecord.sleptRetry
      = List.replicate (MAX_RETRIES - 1) true ++ [false] ∧
    ∀ (u2 : Str) (a2 : Nat → AttemptResult) (c2 : Bool),
      (execute_query_with_retry u2 a2 c2).1.length ≤ MAX_RETRIES := by
  have h2 := retryLoop_all_transient user attempts MAX_RETRIES 0 0 1 initConnected
    (by decide) (fun a _ ha2 => h a (by simpa using ha2))
  refine ⟨rfl, h2.1, ?_, h2.2, fun u2 a2 c2 => retryLoop_length_le u2 a2 MAX_RETRIES 0 0 1 c2⟩
  have hlen := congrArg List.length h2.2
  simpa [MAX_RETRIES] using hlen

/-- Claim C1 witness: a run in which every attempt raises the Doris memory
signal `mem_limit_exceeded`. -/
theorem claim1_witness :
    MAX_RETRIES = 3 ∧
    (execute_query_with_retry rootUser (fun _ => .err "mem_limit_exceeded".toList) true).2
      = .done false ∧
    (execute_query_with_retry rootUser
      (fun _ => .err "mem_limit_exceeded".toList) true).1.length = MAX_RETRIES ∧
    (execute_query_with_retry rootUser (fun _ => .err "mem_limit_exceeded".toList) true).1.map
        AttemptRecord.sleptRetry = List.replicate (MAX_RETRIES - 1) true ++ [false] ∧
    ∀ (u2 : Str) (a2 : Nat → AttemptResult) (c2 : Bool),
      (execute_query_with_retry u2 a2 c2).1.length ≤ MAX_RETRIES :=
  claim1_transient_failure_bounded_retries rootUser
    (fun _ => .err "mem_limit_exceeded".toList) true
    (fun _ _ => ⟨"mem_limit_exceeded".toList, rfl, by decide⟩)

/-- **C2**: if the primary identity is rejected with an authorization error
and the fallback identity `default` is then also rejected when connecting,
`_connect_with_fallback` terminates the run fatally (`sys.exit(1)`), and
exactly the two identities — primary then `default` — were attempted, never a
third. -/
theorem claim2_double_auth_failure_fatal
    (user : Str) (connectErr : Str → Option Str) (e e2 : Str)
    (h1 : connectErr user = some e) (h2 : is_auth_error e = true)
    (h3 : user ≠ defaultUser)
    (h4 : connectErr defaultUser = some e2) (_h5 : is_auth_error e2 = true) :
    connect_with_fallback user connectErr = (.exitFatal, [user, defaultUser]) := by
  have hbeq : (user == defaultUser) = false := by
    simpa using h3
  simp [connect_with_fallback, h1, h2, h4, hbeq]

/-- Claim C2 witness: both `root` and the fallback `default` are rejected
with access-denied errors. -/
theorem claim2_witness :
    connect_with_fallback rootUser
        (fun u => if u == rootUser then some "access denied for user root".toList
                  else some "access denied for user default".toList)
      = (.exitFatal, [rootUser, defaultUser]) :=
  claim2_double_auth_failure_fatal rootUser _
    "access denied for user root".toList "access denied for user default".toList
    (by decide) (by decide) (by decide) (by decide) (by decide)

/-- Claim C3 counterexample: the claim says the *remaining* files (those not
yet completed) are restarted and the earlier pass's per-file results are
carried into the final summary. In `c3Env`, `1.sql` completes successfully
in 5 time units under `root` before `2.sql` hits the authorization error,
yet the final summary (a) re-runs `1.sql` under the fallback identity (it
appears with the fallback pass's 7-unit time) and (b) does not contain the
earlier pass's result `("1.sql", 5)` at all. -/
theorem claim3_counterexample :
    (run_benchmarks c3Env rootUser ["1.sql".toList, "2.sql".toList]).successful
      = [("1.sql".toList, 7), ("2.sql".toList, 7)] ∧
    ("1.sql".toList, (5 : Nat)) ∉
      (run_benchmarks c3Env rootUser ["1.sql".toList, "2.sql".toList]).successful ∧
    (run_benchmarks c3Env rootUser ["1.sql".toList, "2.sql".toList]).restarted = true := by
  decide

/-- **C3 (amended)**: when a query-execution authorization error occurs while
the runner is using the primary `root` identity, the current pass is aborted
and the *entire original* file sequence — including files already completed —
is restarted exactly once under the single fallback identity; the final
summary consists of the restart pass's results alone (the earlier pass's
accumulated results are discarded), and the restart pass records every file
of the original sequence exactly once. -/
theorem claim3_amended_full_restart
    (env : BenchEnv) (allFiles rest : List Str) (f : Str)
    (succ : List (Str × Nat)) (failed : List Str) (total : Nat) (s m : Str)
    (hread : env.readFile f = .found s)
    (hne : (strip s).isEmpty = false)
    (hexec : execFile env rootUser f s = .raised m)
    (hauth : is_auth_error m = true) :
    runBenchGo env rootUser allFiles (f :: rest) succ failed total
      = restart_with_default_user env allFiles ∧
    (restart_with_default_user env allFiles).restarted = true ∧
    (restart_with_default_user env allFiles).successful.length
      + (restart_with_default_user env allFiles).failed.length = allFiles.length := by
  refine ⟨?_, by simp [restart_with_default_user], restart_all_recorded env allFiles⟩
  simp [runBenchGo, hread, hne, hexec, hauth]

/-- Claim C3 witness: the amended statement applied at the moment `2.sql`
raises the authorization error in `c3Env`, with `1.sql` already completed. -/
theorem claim3_witness :
    runBenchGo c3Env rootUser ["1.sql".toList, "2.sql".toList] ["2.sql".toList]
        [("1.sql".toList, 5)] [] 5
      = restart_with_default_user c3Env ["1.sql".toList, "2.sql".toList] ∧
    (restart_with_default_user c3Env ["1.sql".toList, "2.sql".toList]).restarted = true ∧
    (restart_with_default_user c3Env ["1.sql".toList, "2.sql".toList]).successful.length
      + (restart_with_default_user c3Env ["1.sql".toList, "2.sql".toList]).failed.length
      = (["1.sql".toList, "2.sql".toList] : List Str).length :=
  claim3_amended_full_restart c3Env ["1.sql".toList, "2.sql".toList] [] "2.sql".toList
    [("1.sql".toList, 5)] [] 5 "select 2".toList "access denied".toList
    (by decide) (by decide) (by decide) (by decide)

/-- **C4**: the benchmark runner executes query files in ascending order of
the numeric prefix of each filename (`10.sql`, `2.sql`, `1.sql` run as
`1.sql`, `2.sql`, `10.sql`); whenever every prefix parses, the output is a
permutation of the discovered `.sql` set sorted by the numeric key, and if
any filename's prefix cannot be parsed as a number the *entire* set is
ordered lexically instead — a whole-set fallback, never per-file. -/
theorem claim4_query_file_ordering :
    get_sql_files ["10.sql".toList, "2.sql".toList, "1.sql".toList]
      = some ["1.sql".toList, "2.sql".toList, "10.sql".toList] ∧
    (∀ listing : List Str,
      (listing.filter fun f => ".sql".toList.isSuffixOf f) ≠ [] →
      ((listing.filter fun f => ".sql".toList.isSuffixOf f).all
        fun f => (numKey? f).isSome) = true →
      ∃ out, get_sql_files listing = some out ∧
        List.Perm out (listing.filter fun f => ".sql".toList.isSuffixOf f) ∧
        out.Pairwise fun a b => numLe a b = true) ∧
    (∀ listing : List Str,
      (listing.filter fun f => ".sql".toList.isSuffixOf f) ≠ [] →
      (∃ f ∈ listing.filter fun f => ".sql".toList.isSuffixOf f, numKey? f = none) →
      ∃ out, get_sql_files listing = some out ∧
        List.Perm out (listing.filter fun f => ".sql".toList.isSuffixOf f) ∧
        out.Pairwise fun a b => lexLe a b = true) := by
  refine ⟨by decide, ?_, ?_⟩
  · intro listing h1 h2
    have hne : (listing.filter fun f => ".sql".toList.isSuffixOf f).isEmpty = false := by
      cases hl : listing.filter fun f => ".sql".toList.isSuffixOf f with
      | nil => exact absurd hl h1
      | cons a t => rfl
    refine ⟨insertionSortBy numLe (listing.filter fun f => ".sql".toList.isSuffixOf f), ?_,
      insertionSortBy_perm _ _, pairwise_insertionSortBy _ numLe_total numLe_trans _⟩
    simp only [get_sql_files]
    rw [hne, h2]
    simp
  · intro listing h1 hex
    have hne : (listing.filter fun f => ".sql".toList.isSuffixOf f).isEmpty = false := by
      cases hl : listing.filter fun f => ".sql".toList.isSuffixOf f with
      | nil => exact absurd hl h1
      | cons a t => rfl
    have hall : ((listing.filter fun f => ".sql".toList.isSuffixOf f).all
        fun f => (numKey? f).isSome) = false := by
      rcases hex with ⟨f, hf1, hf2⟩
      cases hall2 : (listing.filter fun f => ".sql".toList.isSuffixOf f).all
          fun f => (numKey? f).isSome with
      | false => rfl
      | true =>
        have hcontra := List.all_eq_true.mp hall2 f hf1
        rw [hf2] at hcontra
        simp at hcontra
    refine ⟨insertionSortBy lexLe (listing.filter fun f => ".sql".toList.isSuffixOf f), ?_,
      insertionSortBy_perm _ _, pairwise_insertionSortBy _ lexLe_total lexLe_trans _⟩
    simp only [get_sql_files]
    rw [hne, hall]
    simp

/-- Claim C4 witness: the numeric branch on `10.sql, 2.sql, 1.sql` and the
lexical whole-set fallback triggered by `b.sql`. -/
theorem claim4_witness :
    (∃ out, get_sql_files ["10.sql".toList, "2.sql".toList, "1.sql".toList] = some out ∧
      List.Perm out (["10.sql".toList, "2.sql".toList, "1.sql".toList].filter
        fun f => ".sql".toList.isSuffixOf f) ∧
      out.Pairwise fun a b => numLe a b = true) ∧
    (∃ out, get_sql_files ["b.sql".toList, "10.sql".toList, "2.sql".toList] = some out ∧
      List.Perm out (["b.sql".toList, "10.sql".toList, "2.sql".toList].filter
        fun f => ".sql".toList.isSuffixOf f) ∧
      out.Pairwise fun a b => lexLe a b = true) :=
  ⟨claim4_query_file_ordering.2.1 _ (by decide) (by decide),
   claim4_query_file_ordering.2.2 _ (by decide)
     ⟨"b.sql".toList, by decide, by decide⟩⟩

/-- **C8**: whenever a retry attempt follows a memory-limit-classified
execution failure, the connection that observed the failure was closed
(`closedAfter`) and the retried attempt reconnected and ran on a different
connection generation — no retry reuses the invalidated connection. -/
theorem claim8_memory_retry_fresh_connection
    (user : Str) (attempts : Nat → AttemptResult) (initConnected : Bool)
    (i : Nat) (r r2 : AttemptRecord) (m : Str)
    (h1 : (execute_query_with_retry user attempts initConnected).1.get? i = some r)
    (h2 : (execute_query_with_retry user attempts initConnected).1.get? (i + 1) = some r2)
    (hout : r.outcome = .err m) (hmem : is_memory_error m = true) :
    r.closedAfter = true ∧ r2.reconnected = true ∧ r2.connGen ≠ r.connGen :=
  retryLoop_memory_reconnects user attempts MAX_RETRIES 0 0 1 initConnected
    (by decide) i r r2 m h1 h2 hout hmem

/-- Claim C8 witness: with every attempt failing on `mem_limit_exceeded`,
attempt 0 runs on generation 0, is closed, and attempt 1 runs reconnected on
generation 1. -/
theorem claim8_witness :
    (⟨0, 0, false, .err "mem_limit_exceeded".toList, true, true⟩
        : AttemptRecord).closedAfter = true ∧
    (⟨1, 1, true, .err "mem_limit_exceeded".toList, true, true⟩
        : AttemptRecord).reconnected = true ∧
    (⟨1, 1, true, .err "mem_limit_exceeded".toList, true, true⟩
        : AttemptRecord).connGen
      ≠ (⟨0, 0, false, .err "mem_limit_exceeded".toList, true, true⟩
        : AttemptRecord).connGen :=
  claim8_memory_retry_fresh_connection rootUser
    (fun _ => .err "mem_limit_exceeded".toList) true 0
    ⟨0, 0, false, .err "mem_limit_exceeded".toList, true, true⟩
    ⟨1, 1, true, .err "mem_limit_exceeded".toList, true, true⟩
    "mem_limit_exceeded".toList (by decide) (by decide) rfl (by decide)

/-- Claim C10 counterexample: the claim says an empty/whitespace-only query
file is recorded neither as successful nor as failed. In `c10Env` the main
pass does skip the whitespace-only `0.sql`, but `1.sql`'s authorization error
triggers the fallback restart, whose loop has no empty-file check: `0.sql` is
re-read and trivially executed (its statement list is empty), so it *is*
recorded as a successful query in the final summary. -/
theorem claim10_counterexample :
    ("0.sql".toList, (0 : Nat)) ∈
      (run_benchmarks c10Env rootUser ["0.sql".toList, "1.sql".toList]).successful ∧
    (run_benchmarks c10Env rootUser ["0.sql".toList, "1.sql".toList]).restarted = true := by
  decide

/-- **C10 (amended)**: in the primary pass a discovered query file whose
content is empty or whitespace-only is skipped — it is recorded neither as
successful nor as failed and leaves the accumulated summary untouched; in a
fallback restart pass, however, such a file is re-read and trivially
executed, being recorded as *successful* with zero statements executed. In
neither pass is it added to the failed set, so by itself it can never cause
the failure exit. -/
theorem claim10_amended_empty_file_handling :
    (∀ (env : BenchEnv) (user : Str) (allFiles rest : List Str) (f s : Str)
        (succ : List (Str × Nat)) (failed : List Str) (total : Nat),
      env.readFile f = .found s → (strip s).isEmpty = true →
      runBenchGo env user allFiles (f :: rest) succ failed total
        = runBenchGo env user allFiles rest succ failed total) ∧
    (∀ (env : BenchEnv) (acc : List (Str × Nat) × List Str × Nat) (f s : Str),
      env.readFile f = .found s → (strip s).isEmpty = true →
      restartStep env acc f = (acc.1 ++ [(f, 0)], acc.2.1, acc.2.2)) := by
  constructor
  · intro env user allFiles rest f s succ failed total hread hstrip
    simp [runBenchGo, hread, hstrip]
  · intro env acc f s hread hstrip
    have hstmt : scriptStatements s = [] := scriptStatements_eq_nil hstrip
    simp [restartStep, hread, execFile, hstmt]

/-- Claim C10 witness: the amended statement applied to the whitespace-only
`0.sql` of `c10Env`, in both passes. -/
theorem claim10_witness :
    runBenchGo c10Env rootUser ["0.sql".toList, "1.sql".toList] ["0.sql".toList] [] [] 0
      = runBenchGo c10Env rootUser ["0.sql".toList, "1.sql".toList] [] [] [] 0 ∧
    restartStep c10Env ([], [], 0) "0.sql".toList = ([("0.sql".toList, 0)], [], 0) := by
  constructor
  · exact claim10_amended_empty_file_handling.1 c10Env rootUser
      ["0.sql".toList, "1.sql".toList] ["0.sql".toList] "0.sql".toList "   ".toList
      [] [] 0 (by decide) (by decide)
  · simpa using claim10_amended_empty_file_handling.2 c10Env ([], [], 0)
      "0.sql".toList "   ".toList (by decide) (by decide)

end RunBenchmarks

namespace LoadData

/-- The decision shape shared by the two cluster readiness probes. -/
theorem cluster_probe_shape (alive : List Str → Bool) (c s : Bool)
    (obs : Option (List (List Str))) :
    (if !c then false
     else if !s then false
     else
       match obs with
       | none => false
       | some backends =>
         if backends.isEmpty then false
         else if backends.countP alive = 0 then false
         else true) = true
    ↔ c = true ∧ s = true ∧ ∃ bs, obs = some bs ∧ ∃ b ∈ bs, alive b = true := by
  cases c with
  | false => simp
  | true =>
    cases s with
    | false => simp
    | true =>
      rcases obs with _ | bs
      · simp
      · rcases bs with _ | ⟨b0, bt⟩
        · simp
        · simp only [Bool.not_true, Bool.false_eq_true, if_false, List.isEmpty_cons]
          constructor
          · intro h
            refine ⟨trivial, trivial, b0 :: bt, rfl, ?_⟩
            by_cases hcnt : List.countP alive (b0 :: bt) = 0
            · rw [if_pos hcnt] at h
              exact absurd h (by simp)
            · exact List.countP_pos_iff.mp (Nat.pos_of_ne_zero hcnt)
          · rintro ⟨-, -, bs2, hbs2, b, hb, hab⟩
            injection hbs2 with hh
            subst hh
            have hcnt : List.countP alive (b0 :: bt) ≠ 0 :=
              Nat.pos_iff_ne_zero.mp (List.countP_pos_iff.mpr ⟨b, hb, hab⟩)
            rw [if_neg hcnt]

/-- **C5**: the Doris and StarRocks readiness probes return `true` exactly
when basic connectivity succeeds (connection established, `SELECT 1` answers)
*and* `SHOW BACKENDS` reports at least one alive backend node; in particular
a connectable server with an empty backend list, or with no alive backend, is
reported not-ready. -/
theorem claim5_cluster_probe_requires_alive_backend (env : ClusterProbeEnv) :
    (doris_test_connection env = true ↔
      env.connectOk = true ∧ env.selectOneOk = true ∧
      ∃ bs, env.backendsResult = some bs ∧ ∃ b ∈ bs, dorisBackendAlive b = true) ∧
    (starrocks_test_connection env = true ↔
      env.connectOk = true ∧ env.selectOneOk = true ∧
      ∃ bs, env.backendsResult = some bs ∧ ∃ b ∈ bs, starrocksBackendAlive b = true) :=
  ⟨cluster_probe_shape dorisBackendAlive env.connectOk env.selectOneOk env.backendsResult,
   cluster_probe_shape starrocksBackendAlive env.connectOk env.selectOneOk env.backendsResult⟩

/-- **C6**: the streaming-ingestion loaders raise a load error exactly when
the HTTP status is not 200 or the response body's `Status` field is not
`Success`; when the load itself succeeded, the separate row-count query's
failure (`countQueryOk = false`) is tolerated and the call still ends in
success. -/
theorem claim6_stream_load_error_criterion :
    (∀ (resp : StreamLoadResponse) (c : Bool),
      (doris_stream_load resp c == LoadOutcome.loadError)
        = !((resp.statusCode == 200) && (resp.bodyStatus == some "Success".toList))) ∧
    (∀ c : Bool, doris_stream_load ⟨200, some "Success".toList⟩ c = .ok c) ∧
    (∀ (resp : StreamLoadResponse) (c : Bool),
      (starrocks_stream_load resp c == LoadOutcome.loadError)
        = !((resp.statusCode == 200) && (resp.bodyStatus == some "Success".toList))) ∧
    (∀ c : Bool, starrocks_stream_load ⟨200, some "Success".toList⟩ c = .ok c) := by
  refine ⟨?_, fun c => rfl, ?_, fun c => rfl⟩
  · intro resp c
    unfold doris_stream_load
    cases h1 : resp.statusCode == 200 <;>
      cases h2 : resp.bodyStatus == some "Success".toList <;> simp [h1, h2]
  · intro resp c
    unfold starrocks_stream_load
    cases h1 : resp.statusCode == 200 <;>
      cases h2 : resp.bodyStatus == some "Success".toList <;> simp [h1, h2]

/-- Claim C7 counterexample: the claim says every readiness probe called with
a zero timeout returns false immediately, without blocking. The ColumnStore
probe first runs its provisioning precheck — the blocking `docker ps` and
`docker exec ... provision` subprocess invocations — even when the timeout is
zero: its effect trace is not empty. -/
theorem claim7_counterexample :
    (columnstore_wait_for_connection 1 ⟨true, true, 1⟩ (fun _ => 0) (fun _ => false) 0).1
      = false ∧
    (columnstore_wait_for_connection 1 ⟨true, true, 1⟩ (fun _ => 0) (fun _ => false) 0).2
      = [ProbeEffect.dockerPs, ProbeEffect.dockerProvision] ∧
    ([ProbeEffect.dockerPs, ProbeEffect.dockerProvision] : List ProbeEffect) ≠ [] := by
  decide

/-- **C7 (amended)**: with a zero timeout, the TiDB, Doris and StarRocks
readiness probes return false immediately with no side effect at all (no
poll, no sleep); the ColumnStore probe also returns false without any
connection poll or sleep, but only after running its provisioning precheck,
whose effect trace consists of the two docker subprocess invocations. -/
theorem claim7_amended_zero_timeout :
    (∀ (fuel : Nat) (elapsedAt : Nat → Nat) (poll : Nat → Bool),
      tidb_wait_for_connection (fuel + 1) elapsedAt poll 0 = (false, [])) ∧
    (∀ (fuel : Nat) (elapsedAt : Nat → Nat) (poll : Nat → Bool),
      doris_wait_for_connection (fuel + 1) elapsedAt poll (some 0) = (false, [])) ∧
    (∀ (fuel : Nat) (elapsedAt : Nat → Nat) (poll : Nat → Bool),
      starrocks_wait_for_connection (fuel + 1) elapsedAt poll (some 0) = (false, [])) ∧
    (∀ (fuel : Nat) (env : ProvisionEnv) (elapsedAt : Nat → Nat) (poll : Nat → Bool),
      columnstore_wait_for_connection (fuel + 1) env elapsedAt poll 0
        = (false, (ensure_columnstore_provisioned env).2) ∧
      ((ensure_columnstore_provisioned env).2.all
        fun e => e == ProbeEffect.dockerPs || e == ProbeEffect.dockerProvision) = true) := by
  have hloop : ∀ (sleepLen fuel : Nat) (elapsedAt : Nat → Nat) (poll : Nat → Bool),
      waitLoop sleepLen elapsedAt poll 0 (fuel + 1) 0 = (false, []) := by
    intro sleepLen fuel elapsedAt poll
    simp [waitLoop]
  refine ⟨fun fuel e p => hloop _ fuel e p, fun fuel e p => hloop _ fuel e p,
    fun fuel e p => hloop _ fuel e p, ?_⟩
  intro fuel env elapsedAt poll
  constructor
  · cases hp : (ensure_columnstore_provisioned env).1 with
    | false => simp [columnstore_wait_for_connection, hp]
    | true => simp [columnstore_wait_for_connection, hp, hloop 2 fuel elapsedAt poll]
  · rcases env with ⟨dps, pls, pe⟩
    cases dps <;> cases pls <;> simp [ensure_columnstore_provisioned]

/-- Claim C9 counterexample: the claim says that for each import-utility
invocation, the presence of the literal `error` indicator on the error stream
is raised as a load error. But `_load_table` inspects stderr only when
`cpimport` exits nonzero: a zero-exit invocation whose stderr contains
`error` is treated as a clean success, not a load error. -/
theorem claim9_counterexample :
    columnstore_load_table ⟨0, "error: table locked".toList⟩ = .ok ∧
    containsSub (toLowerStr "error: table locked".toList) "error".toList = true ∧
    columnstore_load_table ⟨0, "error: table locked".toList⟩ ≠ .raisedLoadError := by
  decide

/-- **C9 (amended)**: the ColumnStore provisioning step is idempotent — as
long as the container check passes it reports success whatever the provision
command's own exit status was (in particular when provisioning was already
complete); and for each per-table import invocation that exits *nonzero*,
stderr lacking the literal `error` indicator is tolerated as a non-fatal
warning while stderr containing it is raised as a load error; the stderr of a
zero-exit invocation is not examined at all. -/
theorem claim9_amended_provisioning_and_stderr
    (env : ProvisionEnv) (res res2 res3 : CpimportResult)
    (hps : env.dockerPsOk = true) (hls : env.psListsMcs1 = true)
    (h2 : res.returncode ≠ 0)
    (h2e : containsSub (toLowerStr res.stderrOut) "error".toList = false)
    (h3 : res2.returncode ≠ 0)
    (h3e : containsSub (toLowerStr res2.stderrOut) "error".toList = true)
    (h4 : res3.returncode = 0) :
    (ensure_columnstore_provisioned env).1 = true ∧
    columnstore_load_table res = .warnedOk ∧
    columnstore_load_table res2 = .raisedLoadError ∧
    columnstore_load_table res3 = .ok := by
  refine ⟨?_, ?_, ?_, ?_⟩
  · simp [ensure_columnstore_provisioned, hps, hls]
  · unfold columnstore_load_table
    rw [if_pos h2, h2e]
    simp
  · unfold columnstore_load_table
    rw [if_pos h3, h3e]
    simp
  · unfold columnstore_load_table
    rw [if_neg fun hcontra => hcontra h4]

/-- Claim C9 witness: a provision command that itself exits 1 (already
provisioned) still yields success; a nonzero `cpimport` with only a warning
on stderr is tolerated; a nonzero one mentioning `error` raises; a zero-exit
one mentioning `error` is still a clean success. -/
theorem claim9_witness :
    (ensure_columnstore_provisioned ⟨true, true, 1⟩).1 = true ∧
    columnstore_load_table ⟨1, "warning: locale".toList⟩ = .warnedOk ∧
    columnstore_load_table ⟨1, "Error: bad row".toList⟩ = .raisedLoadError ∧
    columnstore_load_table ⟨0, "0 errors".toList⟩ = .ok :=
  claim9_amended_provisioning_and_stderr ⟨true, true, 1⟩
    ⟨1, "warning: locale".toList⟩ ⟨1, "Error: bad row".toList⟩ ⟨0, "0 errors".toList⟩
    (by decide) (by decide) (by decide) (by decide) (by decide) (by decide) (by decide)

end LoadData

end AnalyticsBenchmark
